import Mathlib

/-!
Verification development for the EduPredict client (web/js).

Shallow embedding of:
- the risk-classification helpers of the chart utilities module
  (`getRiskColor`, `getRiskLabel`);
- the simulator controller of the main application module
  (state literal, `INVESTMENT_CONFIG`, `handleInvestment`, `updatePrediction`,
  `handleLoadData`, `handleReset`, `resetInvestments`, and the per-card
  enable/disable rule of `updateInvestmentLevels`);
- the dashboard controller (`init`, `loadData`, `renderKPIs`,
  `renderDepartmentList`, `filterByDepartment`, `updateKPIsForDepartment`).

JS numbers that carry rates/ratios are modelled as `ℚ`; monetary amounts and
counts as `Int`/`Nat`.  Network calls are modelled by an environment of
functions returning `Option` results (`none` = rejected fetch / thrown error).
-/

namespace EduPredict

/-! ### Risk helpers (chart utilities module) -/

inductive Lang
  | en
  | es
deriving DecidableEq, Repr

structure RiskLabels where
  low : String
  medium : String
  high : String
deriving DecidableEq, Repr

/-- Per-language label table inside `getRiskLabel`. -/
def riskLabelTable : Lang → RiskLabels
  | .en => ⟨"Low", "Medium", "High"⟩
  | .es => ⟨"Bajo", "Medio", "Alto"⟩

/-- Embeds `getRiskColor(dropoutRate)`. -/
def getRiskColor (dropoutRate : ℚ) : String :=
  if dropoutRate < 3 then "#10b981"
  else if dropoutRate < 6 then "#f59e0b"
  else "#ef4444"

/-- Embeds `getRiskLabel(dropoutRate, lang)`. -/
def getRiskLabel (dropoutRate : ℚ) (lang : Lang) : String :=
  if dropoutRate < 3 then (riskLabelTable lang).low
  else if dropoutRate < 6 then (riskLabelTable lang).medium
  else (riskLabelTable lang).high

/-! ### Simulator controller (main application module) -/

inductive InvestmentType
  | infrastructure
  | quality
  | coverage
  | staffing
deriving DecidableEq, Repr

structure InvestmentSpec where
  cost : Int
  parameter : String
  improvement : ℚ
deriving DecidableEq, Repr

/-- Embeds the `INVESTMENT_CONFIG` literal. -/
def INVESTMENT_CONFIG : InvestmentType → InvestmentSpec
  | .infrastructure => ⟨3000, "primaria_to_media_ratio", mkRat 5 100⟩
  | .quality => ⟨1500, "repitencia_lag_1", mkRat (-5) 10⟩
  | .coverage => ⟨1000, "over_age_gap", -1⟩
  | .staffing => ⟨4000, "classroom_density", -2⟩

/-- The `state.investments` object: one level counter per investment kind. -/
structure Investments where
  infrastructure : Nat
  quality : Nat
  coverage : Nat
  staffing : Nat
deriving DecidableEq, Repr

def Investments.level (inv : Investments) : InvestmentType → Nat
  | .infrastructure => inv.infrastructure
  | .quality => inv.quality
  | .coverage => inv.coverage
  | .staffing => inv.staffing

/-- Embeds `state.investments[investmentType]++`. -/
def Investments.incr (inv : Investments) : InvestmentType → Investments
  | .infrastructure => { inv with infrastructure := inv.infrastructure + 1 }
  | .quality => { inv with quality := inv.quality + 1 }
  | .coverage => { inv with coverage := inv.coverage + 1 }
  | .staffing => { inv with staffing := inv.staffing + 1 }

def zeroInvestments : Investments := ⟨0, 0, 0, 0⟩

/-- Key order of the `state.investments` literal, which is the order
`Object.entries` iterates in `updatePrediction`. -/
def investmentTypes : List InvestmentType :=
  [.infrastructure, .quality, .coverage, .staffing]

/-- A `/predict` response as used by the simulator. -/
structure Prediction where
  municipality_name : String
  predicted_dropout_rate : ℚ
  predicted_students_impacted : Int
  input_parameters : String → ℚ

/-- The request body built by `predictDropout` in the API client:
`scenario_adjustments` is included only when a non-null adjustments object was
passed. -/
structure PredictRequest where
  municipality_name : Option String
  target_year : Int
  scenario_adjustments : Option (List (String × ℚ))

/-- Environment model of the `/predict` endpoint (deterministic). -/
def PredictApi : Type := PredictRequest → Prediction

/-- Embeds the simulator `state` literal. -/
structure SimulationState where
  budget : Int
  selectedDepartment : Option String
  selectedMunicipality : Option String
  baseline : Option Prediction
  currentPrediction : Option Prediction
  investments : Investments

/-- The initial `state` literal: budget 10000, nothing selected, no
predictions, all levels 0. -/
def initialSimState : SimulationState :=
  { budget := 10000
    selectedDepartment := none
    selectedMunicipality := none
    baseline := none
    currentPrediction := none
    investments := zeroInvestments }

/-- The adjustments object built in `updatePrediction`: one entry per
investment kind with level > 0, in `Object.entries` order, with value
`baseline.input_parameters[config.parameter] + config.improvement * level`. -/
def scenarioAdjustments (baseline : Prediction) (inv : Investments) :
    List (String × ℚ) :=
  (investmentTypes.filter (fun t => decide (0 < inv.level t))).map (fun t =>
    ((INVESTMENT_CONFIG t).parameter,
      baseline.input_parameters (INVESTMENT_CONFIG t).parameter
        + (INVESTMENT_CONFIG t).improvement * (inv.level t : ℚ)))

/-- The call `api.predictDropout(state.selectedMunicipality, 2025,
Object.keys(adjustments).length > 0 ? adjustments : null)` made by
`updatePrediction`, as a request value. -/
def buildPredictRequest (s : SimulationState) (baseline : Prediction) :
    PredictRequest :=
  let adjustments := scenarioAdjustments baseline s.investments
  { municipality_name := s.selectedMunicipality
    target_year := 2025
    scenario_adjustments :=
      if adjustments.isEmpty then none else some adjustments }

/-- Embeds `updatePrediction`.  Returns the new state and the request issued.
When `state.baseline` is null the JS body throws on
`state.baseline.input_parameters[...]` inside the function's try/catch, so no
request is issued and only the error banner changes; that path is modelled as
`(s, none)`. -/
def updatePrediction (api : PredictApi) (s : SimulationState) :
    SimulationState × Option PredictRequest :=
  match s.baseline with
  | none => (s, none)
  | some b =>
      let req := buildPredictRequest s b
      ({ s with currentPrediction := some (api req) }, some req)

/-- Embeds `handleInvestment` (the click handler body): reject when
`state.budget < cost`, otherwise debit the budget, increment the level, and
recompute the prediction.  The `cost` read from the button's dataset is the
configured cost of the kind. -/
def handleInvestment (api : PredictApi) (s : SimulationState)
    (t : InvestmentType) : SimulationState × Option PredictRequest :=
  let cost := (INVESTMENT_CONFIG t).cost
  if s.budget < cost then (s, none)
  else
    updatePrediction api
      { s with budget := s.budget - cost, investments := s.investments.incr t }

/-- The per-card button rule of `updateInvestmentLevels`: the invest button is
disabled when `level >= 3` or `state.budget < cost`.  It is re-applied after
every investment and reset, so it always reflects the current state. -/
def investDisabled (s : SimulationState) (t : InvestmentType) : Bool :=
  decide (3 ≤ s.investments.level t)
    || decide (s.budget < (INVESTMENT_CONFIG t).cost)

/-- A user-invoked investment action: clicking a disabled button fires no
event, so `handleInvestment` runs only when the button is enabled. -/
def investAction (api : PredictApi) (s : SimulationState)
    (t : InvestmentType) : SimulationState × Option PredictRequest :=
  if investDisabled s t then (s, none) else handleInvestment api s t

/-- Runs a sequence of user-invoked investment actions. -/
def runActions (api : PredictApi) :
    SimulationState → List InvestmentType → SimulationState
  | s, [] => s
  | s, t :: ts => runActions api (investAction api s t).1 ts

/-- Embeds `resetInvestments`: zero every level (budget untouched). -/
def resetInvestments (s : SimulationState) : SimulationState :=
  { s with investments := zeroInvestments }

/-- Embeds `handleLoadData`: no-op without a selected municipality; otherwise
fetch a baseline prediction (default year 2025, no adjustments), store it as
both baseline and current prediction, and reset the investment levels. -/
def handleLoadData (api : PredictApi) (s : SimulationState) : SimulationState :=
  match s.selectedMunicipality with
  | none => s
  | some _ =>
      let req : PredictRequest :=
        { municipality_name := s.selectedMunicipality
          target_year := 2025
          scenario_adjustments := none }
      let p := api req
      resetInvestments
        { s with baseline := some p, currentPrediction := some p }

/-- Embeds `handleReset`: budget back to 10000, levels zeroed, then reload the
baseline when a municipality is selected. -/
def handleReset (api : PredictApi) (s : SimulationState) : SimulationState :=
  handleLoadData api (resetInvestments { s with budget := 10000 })

/-! ### Dashboard controller (dashboard module) -/

structure NationalStats where
  current_year : Int
  dropout_rate : ℚ
  total_students : Int
  year_over_year_change : ℚ
  funnel_efficiency : ℚ
deriving DecidableEq, Repr

structure DepartmentStat where
  code : String
  name : String
  dropout_rate : ℚ
  student_count : Int
deriving DecidableEq, Repr

/-- The `/analytics/departments` response shape used by the dashboard. -/
structure DeptAnalytics where
  departments : List DepartmentStat
deriving DecidableEq, Repr

structure HistoricalPoint where
  year : Int
  dropout_rate : ℚ
  students : Int
  funnel_ratio : ℚ
deriving DecidableEq, Repr

/-- The `/analytics/history` response shape used by the dashboard. -/
structure HistorySeries where
  data : List HistoricalPoint
  department_code : Option String
deriving DecidableEq, Repr

/-- The `Dashboard.data` object assembled by `loadData`. -/
structure DashData where
  national : NationalStats
  departments : DeptAnalytics
  history : HistorySeries
deriving DecidableEq, Repr

/-- Environment model of the analytics endpoints; `none` models a rejected
fetch (network failure or non-2xx response). -/
structure ApiEnv where
  national : Option NationalStats
  departments : Option DeptAnalytics
  history : Option String → Option HistorySeries

/-- Content of the fourth KPI card: the high-risk count nationally, or the
department code when a department filter is active. -/
inductive RiskCell
  | count (n : Nat)
  | deptCode (c : String)
deriving DecidableEq, Repr

/-- The values shown by the four KPI cards (formatting such as `toFixed` and
locale separators is presentation and not modelled). -/
structure KPIView where
  dropoutRate : ℚ
  dropoutChange : ℚ
  totalStudents : Int
  funnelEfficiency : ℚ
  risk : RiskCell
deriving DecidableEq, Repr

/-- Placeholder content of the KPI elements before any render. -/
def initialKPIView : KPIView :=
  { dropoutRate := 0
    dropoutChange := 0
    totalStudents := 0
    funnelEfficiency := 0
    risk := .count 0 }

/-- The high-risk KPI computed in `renderKPIs` (and again in
`updateKPIsForDepartment`): departments with `dropout_rate > 6`. -/
def highRiskCount (depts : List DepartmentStat) : Nat :=
  (depts.filter (fun d => decide (6 < d.dropout_rate))).length

/-- Embeds `renderKPIs`: all four cards from the national stats and the
department list. -/
def renderKPIs (n : NationalStats) (depts : DeptAnalytics) : KPIView :=
  { dropoutRate := n.dropout_rate
    dropoutChange := n.year_over_year_change
    totalStudents := n.total_students
    funnelEfficiency := n.funnel_efficiency
    risk := .count (highRiskCount depts.departments) }

/-- Embeds `updateKPIsForDepartment` for a non-null department code `c`:
KPIs come from the last point of the fetched series, the change from the
second-to-last point (each left unchanged when the series is too short), and
the fourth card shows the department code. -/
def updateKPIsForDept (v : KPIView) (c : String) (h : HistorySeries) :
    KPIView :=
  let latest := h.data.getLast?
  let prev :=
    if 1 < h.data.length then h.data.get? (h.data.length - 2) else none
  let v :=
    match latest with
    | none => v
    | some l =>
        let v := { v with dropoutRate := l.dropout_rate }
        let v :=
          match prev with
          | none => v
          | some p => { v with dropoutChange := l.dropout_rate - p.dropout_rate }
        { v with totalStudents := l.students, funnelEfficiency := l.funnel_ratio }
  { v with risk := .deptCode c }

/-- Stable insert for the descending sort of the department list. -/
def insertDesc (x : DepartmentStat) : List DepartmentStat → List DepartmentStat
  | [] => [x]
  | y :: ys =>
      if y.dropout_rate < x.dropout_rate then x :: y :: ys
      else y :: insertDesc x ys

/-- The stable sort `[...departments].sort((a, b) => b.dropout_rate -
a.dropout_rate)` performed by `renderDepartmentList`: descending by dropout
rate, ties in original order. -/
def sortDeptsDesc : List DepartmentStat → List DepartmentStat
  | [] => []
  | x :: xs => insertDesc x (sortDeptsDesc xs)

/-- The `Dashboard` state object, together with the rendered DOM content it
drives (KPI cards, the two charts, the department list) and a counter of
three-way analytics fetches issued. -/
structure DashboardState where
  data : Option DashData
  loaded : Bool
  selectedDepartment : Option String
  kpis : KPIView
  trendChart : Option (List HistoricalPoint)
  funnelChart : Option (List HistoricalPoint)
  deptList : Option (List DepartmentStat × Option String)
  errorShown : Bool
  fetchCount : Nat

/-- The initial `Dashboard` literal plus untouched DOM. -/
def initialDashState : DashboardState :=
  { data := none
    loaded := false
    selectedDepartment := none
    kpis := initialKPIView
    trendChart := none
    funnelChart := none
    deptList := none
    errorShown := false
    fetchCount := 0 }

/-- Embeds `loadData`: `Promise.all` of the three analytics fetches — any
failure rejects the whole and `Dashboard.data` is not assigned. -/
def loadData (env : ApiEnv) : Option DashData :=
  match env.national, env.departments, env.history none with
  | some n, some d, some h => some ⟨n, d, h⟩
  | _, _, _ => none

/-- Embeds dashboard `init()`: no-op when already loaded; otherwise issue the
joint fetch, and on success render KPIs, charts and the department list and
mark the dashboard loaded; on failure only show the error banner. -/
def dashInit (env : ApiEnv) (st : DashboardState) : DashboardState :=
  if st.loaded then st
  else
    let st := { st with fetchCount := st.fetchCount + 1 }
    match loadData env with
    | none => { st with errorShown := true }
    | some d =>
        let st := { st with data := some d }
        let st := { st with kpis := renderKPIs d.national d.departments }
        let st :=
          { st with
              trendChart := some d.history.data
              funnelChart := some d.history.data }
        let st :=
          { st with
              deptList :=
                some (sortDeptsDesc d.departments.departments,
                      st.selectedDepartment) }
        { st with loaded := true }

/-- Embeds `filterByDepartment(departmentCode)`.  The selection is assigned
before the fetch; on fetch failure only the error banner is added (the
already-updated selection is not rolled back); on success the stored history
is replaced, KPIs are updated (national KPIs re-rendered when the code is
null), both charts are rebuilt from the new series, and the department list
is re-rendered with the new selection. -/
def filterByDepartment (env : ApiEnv) (st : DashboardState)
    (code : Option String) : DashboardState :=
  let st := { st with selectedDepartment := code }
  match env.history code with
  | none => { st with errorShown := true }
  | some h =>
      let st :=
        { st with
            data := st.data.map (fun (d : DashData) => { d with history := h }) }
      let st :=
        match code with
        | some c => { st with kpis := updateKPIsForDept st.kpis c h }
        | none =>
            match st.data with
            | some d => { st with kpis := renderKPIs d.national d.departments }
            | none => st
      let st := { st with trendChart := some h.data, funnelChart := some h.data }
      let st :=
        match st.data with
        | some d =>
            { st with
                deptList :=
                  some (sortDeptsDesc d.departments.departments,
                        st.selectedDepartment) }
        | none => st
      st

/-- The KPI view a fresh national fetch and render would produce (used to
state the round-trip law). -/
def freshNationalKPIs (env : ApiEnv) : Option KPIView :=
  match env.national, env.departments with
  | some n, some d => some (renderKPIs n d)
  | _, _ => none

/-! ### Navigation controller (main application module) -/

/-- The `AppState` literal plus the dashboard it owns. -/
structure AppState where
  currentView : String
  dashboardLoaded : Bool
  dash : DashboardState

def appViews : List String := ["landing", "dashboard", "simulator"]

/-- The `AppState` literal: landing view, dashboard not yet loaded. -/
def initialAppState : AppState :=
  { currentView := "landing"
    dashboardLoaded := false
    dash := initialDashState }

/-- Embeds `switchView`: unknown names are rejected with no state change;
on a switch to the dashboard with `dashboardLoaded` false, `dashboard.init()`
runs and its resolution sets `dashboardLoaded` (the init promise always
resolves because `init` catches its own errors). -/
def switchView (env : ApiEnv) (a : AppState) (viewName : String) : AppState :=
  if appViews.contains viewName then
    let a' :=
      if viewName = "dashboard" && !a.dashboardLoaded then
        { a with dash := dashInit env a.dash, dashboardLoaded := true }
      else a
    { a' with currentView := viewName }
  else a

/-- Runs a sequence of `switchView` calls. -/
def runSwitches (env : ApiEnv) : AppState → List String → AppState
  | a, [] => a
  | a, v :: vs => runSwitches env (switchView env a v) vs

/-! ### Concrete instances used by witnesses and counterexamples -/

/-- A baseline prediction in the shape of the spec scenario: rate 2.34,
1053 students impacted, every input parameter (classroom density included)
at 30.0. -/
def basePred : Prediction :=
  { municipality_name := "Quibdo"
    predicted_dropout_rate := mkRat 234 100
    predicted_students_impacted := 1053
    input_parameters := fun _ => 30 }

/-- A deterministic prediction API that always answers `basePred`. -/
def apiConst : PredictApi := fun _ => basePred

/-- The simulator state right after loading the `basePred` baseline for a
selected municipality. -/
def loadedState : SimulationState :=
  handleLoadData apiConst
    { initialSimState with
        selectedDepartment := some "27"
        selectedMunicipality := some "Quibdo" }

/-- The state reached from `loadedState` by three coverage investments:
budget 7000 and the coverage lever at its maximum level 3. -/
def reached3 : SimulationState :=
  runActions apiConst loadedState [.coverage, .coverage, .coverage]

/-- A loaded simulator state whose budget is below every investment cost. -/
def poorState : SimulationState := { loadedState with budget := 500 }

def natStats : NationalStats :=
  { current_year := 2024
    dropout_rate := mkRat 51 10
    total_students := 10000000
    year_over_year_change := mkRat (-3) 10
    funnel_efficiency := mkRat 62 100 }

def deptChoco : DepartmentStat := ⟨"27", "Choco", mkRat 89 10, 80000⟩

def deptAnt : DepartmentStat := ⟨"05", "Antioquia", mkRat 45 10, 1200000⟩

def demoDeptAnalytics : DeptAnalytics := ⟨[deptChoco, deptAnt]⟩

def histNat : HistorySeries :=
  ⟨[⟨2023, mkRat 55 10, 9800000, mkRat 60 100⟩, ⟨2024, mkRat 51 10, 10000000, mkRat 62 100⟩],
    none⟩

def demoData : DashData := ⟨natStats, demoDeptAnalytics, histNat⟩

/-- A ready dashboard with department "05" selected. -/
def readyState : DashboardState :=
  { data := some demoData
    loaded := true
    selectedDepartment := some "05"
    kpis := renderKPIs natStats demoDeptAnalytics
    trendChart := some histNat.data
    funnelChart := some histNat.data
    deptList := some (sortDeptsDesc demoDeptAnalytics.departments, some "05")
    errorShown := false
    fetchCount := 1 }

/-- An environment whose historical-trends fetch always fails. -/
def envHistFail : ApiEnv :=
  { national := some natStats
    departments := some demoDeptAnalytics
    history := fun _ => none }

/-- An environment where every fetch succeeds. -/
def envOK : ApiEnv :=
  { national := some natStats
    departments := some demoDeptAnalytics
    history := fun _ => some histNat }

/-- An environment where every fetch fails. -/
def envAllFail : ApiEnv :=
  { national := none
    departments := none
    history := fun _ => none }

/-- The spec scenario list for the high-risk KPI: departments at 8.9 and 7.2
and thirty others below 6. -/
def demoDepartments : List DepartmentStat :=
  deptChoco :: ⟨"44", "La Guajira", mkRat 72 10, 120000⟩ ::
    (List.range 30).map (fun i => ⟨toString i, "Department", mkRat 45 10, 100000⟩)

/-- Spec-side formulation of the high-risk KPI, following the spec's words:
the count of departments whose dropout rate exceeds the fixed threshold 6. -/
def spec_highRiskKPI (depts : List DepartmentStat) : Nat :=
  depts.countP (fun d => decide (6 < d.dropout_rate))

/-! ### Simulator lemmas -/

theorem level_incr (inv : Investments) (t u : InvestmentType) :
    (inv.incr t).level u = if u = t then inv.level u + 1 else inv.level u := by
  cases t <;> cases u <;> simp [Investments.incr, Investments.level]

theorem updatePrediction_investments (api : PredictApi) (s : SimulationState) :
    ((updatePrediction api s).1).investments = s.investments := by
  unfold updatePrediction
  cases s.baseline <;> rfl

theorem updatePrediction_budget (api : PredictApi) (s : SimulationState) :
    ((updatePrediction api s).1).budget = s.budget := by
  unfold updatePrediction
  cases s.baseline <;> rfl

theorem updatePrediction_baseline (api : PredictApi) (s : SimulationState) :
    ((updatePrediction api s).1).baseline = s.baseline := by
  unfold updatePrediction
  cases hb : s.baseline <;> simp [hb]

theorem investAction_level_le (api : PredictApi) (s : SimulationState)
    (t : InvestmentType) (h : ∀ u, s.investments.level u ≤ 3) :
    ∀ u, ((investAction api s t).1).investments.level u ≤ 3 := by
  intro u
  unfold investAction
  by_cases hd : investDisabled s t
  · simp only [hd, if_true]
    exact h u
  · simp only [hd, if_false, Bool.false_eq_true]
    unfold handleInvestment
    by_cases hb : s.budget < (INVESTMENT_CONFIG t).cost
    · simp only [hb, if_true]
      exact h u
    · simp only [hb, if_false]
      rw [updatePrediction_investments]
      simp only
      rw [level_incr]
      by_cases hut : u = t
      · subst hut
        rw [if_pos rfl]
        have hlt : ¬ 3 ≤ s.investments.level u := by
          simp only [investDisabled, Bool.or_eq_true, decide_eq_true_eq] at hd
          intro hx
          exact hd (Or.inl hx)
        omega
      · rw [if_neg hut]
        exact h u

theorem investAction_budget_nonneg (api : PredictApi) (s : SimulationState)
    (t : InvestmentType) (h : 0 ≤ s.budget) :
    0 ≤ ((investAction api s t).1).budget := by
  unfold investAction
  by_cases hd : investDisabled s t
  · simpa [hd]
  · simp only [hd, if_false, Bool.false_eq_true]
    unfold handleInvestment
    by_cases hb : s.budget < (INVESTMENT_CONFIG t).cost
    · simpa [hb]
    · simp only [hb, if_false]
      rw [updatePrediction_budget]
      simp only
      omega

theorem runActions_level_le (api : PredictApi) (acts : List InvestmentType) :
    ∀ s : SimulationState, (∀ u, s.investments.level u ≤ 3) →
      ∀ u, (runActions api s acts).investments.level u ≤ 3 := by
  induction acts with
  | nil => intro s h u; exact h u
  | cons t ts ih =>
      intro s h u
      exact ih _ (investAction_level_le api s t h) u

theorem runActions_budget_nonneg (api : PredictApi) (acts : List InvestmentType) :
    ∀ s : SimulationState, 0 ≤ s.budget →
      0 ≤ (runActions api s acts).budget := by
  induction acts with
  | nil => intro s h; exact h
  | cons t ts ih =>
      intro s h
      exact ih _ (investAction_budget_nonneg api s t h)

/-! ### Claim theorems: simulator -/

/-- C1: starting from the initial simulator state, every investment kind's
level stays in [0, 3] under any sequence of user-invoked investment actions;
and an action on a kind already at level 3 is a complete no-op issuing no
prediction request. -/
theorem C1_levels_bounded :
    (∀ (api : PredictApi) (acts : List InvestmentType) (t : InvestmentType),
        (runActions api initialSimState acts).investments.level t ≤ 3) ∧
    (∀ (api : PredictApi) (s : SimulationState) (t : InvestmentType),
        s.investments.level t = 3 → investAction api s t = (s, none)) := by
  constructor
  · intro api acts t
    refine runActions_level_le api acts initialSimState ?_ t
    intro u
    cases u <;> decide
  · intro api s t h
    have hd : investDisabled s t = true := by
      simp [investDisabled, h]
    simp [investAction, hd]

/-- Witness for C1: in the concrete reachable state with the coverage lever
at level 3, a further coverage click changes nothing and sends nothing. -/
theorem C1_witness :
    investAction apiConst reached3 InvestmentType.coverage = (reached3, none) :=
  C1_levels_bounded.2 apiConst reached3 InvestmentType.coverage (by decide)

/-- C4 (amended): the budget never goes negative; an investment action on
kind k with budget ≥ cost[k] AND level[k] < 3 decreases the budget by exactly
cost[k]; an action with budget < cost[k] leaves the state unchanged.  (The
original claim omitted the level[k] < 3 condition: at level 3 the action is a
no-op regardless of budget.) -/
theorem C4_budget_safety :
    (∀ (api : PredictApi) (acts : List InvestmentType),
        0 ≤ (runActions api initialSimState acts).budget) ∧
    (∀ (api : PredictApi) (s : SimulationState) (t : InvestmentType),
        s.investments.level t < 3 →
        (INVESTMENT_CONFIG t).cost ≤ s.budget →
        ((investAction api s t).1).budget =
          s.budget - (INVESTMENT_CONFIG t).cost) ∧
    (∀ (api : PredictApi) (s : SimulationState) (t : InvestmentType),
        s.budget < (INVESTMENT_CONFIG t).cost →
        investAction api s t = (s, none)) := by
  refine ⟨?_, ?_, ?_⟩
  · intro api acts
    exact runActions_budget_nonneg api acts initialSimState (by decide)
  · intro api s t hlvl hcost
    have hd : investDisabled s t = false := by
      simp only [investDisabled, Bool.or_eq_false_iff, decide_eq_false_iff_not]
      omega
    unfold investAction
    simp only [hd, if_false, Bool.false_eq_true]
    unfold handleInvestment
    simp only [not_lt.mpr hcost, if_false]
    rw [updatePrediction_budget]
  · intro api s t h
    have hd : investDisabled s t = true := by
      simp [investDisabled, h]
    simp [investAction, hd]

/-- Counterexample to C4 as stated: in the reachable state `reached3` the
budget (7000) covers the coverage cost (1000), yet the action does not
decrease the budget, because the coverage lever is already at level 3. -/
theorem C4_counterexample :
    (INVESTMENT_CONFIG InvestmentType.coverage).cost ≤ reached3.budget ∧
    ((investAction apiConst reached3 InvestmentType.coverage).1).budget ≠
      reached3.budget - (INVESTMENT_CONFIG InvestmentType.coverage).cost := by
  constructor
  · decide
  · decide

/-- Witness for C4: a successful staffing investment from the freshly loaded
state debits exactly 4000, and a staffing click with only 500 budget is a
no-op. -/
theorem C4_witness :
    0 ≤ (runActions apiConst initialSimState [InvestmentType.staffing]).budget ∧
    ((investAction apiConst loadedState InvestmentType.staffing).1).budget =
      loadedState.budget - (INVESTMENT_CONFIG InvestmentType.staffing).cost ∧
    investAction apiConst poorState InvestmentType.staffing = (poorState, none) :=
  ⟨C4_budget_safety.1 apiConst [InvestmentType.staffing],
   C4_budget_safety.2.1 apiConst loadedState InvestmentType.staffing
     (by decide) (by decide),
   C4_budget_safety.2.2 apiConst poorState InvestmentType.staffing (by decide)⟩

/-- C9: the reset action restores the budget to the configured default 10000
and zeroes all four investment levels, from any prior state. -/
theorem C9_reset_restores_defaults :
    ∀ (api : PredictApi) (s : SimulationState),
      (handleReset api s).budget = 10000 ∧
      ∀ t, (handleReset api s).investments.level t = 0 := by
  intro api s
  unfold handleReset handleLoadData resetInvestments
  cases s.selectedMunicipality <;>
    exact ⟨rfl, by intro t; cases t <;> rfl⟩

/-! ### Claim theorems: risk helpers and the high-risk KPI -/

/-- C7: the high-risk KPI is the count of departments with dropout rate
strictly above 6; the risk label partitions rates at 3 and 6; and on the
scenario list with exactly two departments above 6 (8.9 and 7.2) the KPI
is 2. -/
theorem C7_high_risk_kpi :
    (∀ depts : List DepartmentStat,
        highRiskCount depts = spec_highRiskKPI depts) ∧
    (∀ (r : ℚ) (lang : Lang),
        (getRiskLabel r lang = (riskLabelTable lang).low ↔ r < 3) ∧
        (getRiskLabel r lang = (riskLabelTable lang).medium ↔ 3 ≤ r ∧ r < 6) ∧
        (getRiskLabel r lang = (riskLabelTable lang).high ↔ 6 ≤ r)) ∧
    highRiskCount demoDepartments = 2 := by
  refine ⟨?_, ?_, by decide⟩
  · intro depts
    simp [highRiskCount, spec_highRiskKPI, List.countP_eq_length_filter]
  · intro r lang
    by_cases h3 : r < 3
    · have h6 : r < 6 := lt_trans h3 (by norm_num)
      cases lang <;>
        simp [getRiskLabel, riskLabelTable, h3, h6, not_le.mpr h3, not_le.mpr h6]
    · rw [not_lt] at h3
      by_cases h6 : r < 6
      · cases lang <;>
          simp [getRiskLabel, riskLabelTable, not_lt.mpr h3, h6, h3, not_le.mpr h6]
      · rw [not_lt] at h6
        cases lang <;>
          simp [getRiskLabel, riskLabelTable, not_lt.mpr h3, not_lt.mpr h6, h6]

/-- C10: badge color and label always agree — red exactly for the high
label, amber exactly for medium, emerald exactly for low, in both
languages. -/
theorem C10_color_label_consistent :
    ∀ (r : ℚ) (lang : Lang),
      (getRiskColor r = "#ef4444" ↔
        getRiskLabel r lang = (riskLabelTable lang).high) ∧
      (getRiskColor r = "#f59e0b" ↔
        getRiskLabel r lang = (riskLabelTable lang).medium) ∧
      (getRiskColor r = "#10b981" ↔
        getRiskLabel r lang = (riskLabelTable lang).low) := by
  intro r lang
  cases lang <;> by_cases h3 : r < 3 <;> by_cases h6 : r < 6 <;>
    simp [getRiskColor, getRiskLabel, riskLabelTable, h3, h6]

/-! ### Dashboard lemmas -/

theorem loadData_none (env : ApiEnv)
    (h : env.national = none ∨ env.departments = none ∨ env.history none = none) :
    loadData env = none := by
  cases hn : env.national <;> cases hd : env.departments <;>
    cases hh : env.history none <;> simp_all [loadData]

theorem dashInit_noop (env : ApiEnv) (st : DashboardState)
    (h : st.loaded = true) : dashInit env st = st := by
  simp [dashInit, h]

theorem dashInit_fetchCount (env : ApiEnv) (st : DashboardState)
    (h : st.loaded = false) :
    (dashInit env st).fetchCount = st.fetchCount + 1 := by
  unfold dashInit
  rw [h]
  cases hld : loadData env <;> simp

theorem dashInit_loads (env : ApiEnv) (st : DashboardState) :
    (dashInit env st).loaded = true ∨
      ((dashInit env st).loaded = st.loaded ∧
        (dashInit env st).fetchCount = st.fetchCount ∨
       (dashInit env st).fetchCount = st.fetchCount + 1) := by
  by_cases h : st.loaded = true
  · left
    rw [dashInit_noop env st h]
    exact h
  · right
    right
    exact dashInit_fetchCount env st (by simpa using h)

theorem switchView_not_dashboard (env : ApiEnv) (a : AppState) (v : String)
    (hv : v ≠ "dashboard") :
    (switchView env a v).dash = a.dash ∧
      (switchView env a v).dashboardLoaded = a.dashboardLoaded := by
  unfold switchView
  split
  · simp [hv]
  · exact ⟨rfl, rfl⟩

theorem switchView_loaded (env : ApiEnv) (a : AppState) (v : String)
    (h : a.dashboardLoaded = true) :
    (switchView env a v).dash = a.dash ∧
      (switchView env a v).dashboardLoaded = true := by
  unfold switchView
  split
  · simp [h]
  · exact ⟨rfl, h⟩

theorem runSwitches_loaded (env : ApiEnv) (vs : List String) :
    ∀ a : AppState, a.dashboardLoaded = true →
      (runSwitches env a vs).dash = a.dash ∧
        (runSwitches env a vs).dashboardLoaded = true := by
  induction vs with
  | nil => intro a h; exact ⟨rfl, h⟩
  | cons v vs ih =>
      intro a h
      obtain ⟨h1, h2⟩ := switchView_loaded env a v h
      obtain ⟨h3, h4⟩ := ih (switchView env a v) h2
      exact ⟨h3.trans h1, h4⟩

theorem runSwitches_fetchCount (env : ApiEnv) (vs : List String) :
    ∀ a : AppState, a.dashboardLoaded = false → a.dash.loaded = false →
      a.dash.fetchCount = 0 →
      (runSwitches env a vs).dash.fetchCount =
        if vs.contains "dashboard" then 1 else 0 := by
  induction vs with
  | nil =>
      intro a h1 h2 h3
      simpa [runSwitches] using h3
  | cons v vs ih =>
      intro a h1 h2 h3
      by_cases hv : v = "dashboard"
      · subst hv
        have hsw : switchView env a "dashboard" =
            { currentView := "dashboard"
              dashboardLoaded := true
              dash := dashInit env a.dash } := by
          simp [switchView, h1, show "dashboard" ∈ appViews from by decide]
        obtain ⟨hd, _⟩ :=
          runSwitches_loaded env vs (switchView env a "dashboard")
            (by rw [hsw])
        rw [runSwitches, hd, hsw]
        simp [dashInit_fetchCount env a.dash h2, h3]
      · obtain ⟨hd, hl⟩ := switchView_not_dashboard env a v hv
        rw [runSwitches]
        rw [ih (switchView env a v) (hl.trans h1) (by rw [hd]; exact h2)
          (by rw [hd]; exact h3)]
        have : ((v :: vs).contains "dashboard") = (vs.contains "dashboard") := by
          simp [List.contains_cons, Ne.symm hv]
        rw [this]

/-! ### Claim theorems: dashboard -/

/-- C2 (amended): when the historical-trends fetch of
`filterByDepartment(code)` fails, the stored data (historical series
included), the rendered KPI content, both charts and the department list are
all unchanged and an error is surfaced; the selected department code,
however, has already been set to the requested code before the fetch and is
not restored.  (The original claim asserted the previous selection is
preserved.) -/
theorem C2_filter_failure_preserves_content :
    ∀ (env : ApiEnv) (st : DashboardState) (code : Option String),
      env.history code = none →
      (filterByDepartment env st code).data = st.data ∧
      (filterByDepartment env st code).kpis = st.kpis ∧
      (filterByDepartment env st code).trendChart = st.trendChart ∧
      (filterByDepartment env st code).funnelChart = st.funnelChart ∧
      (filterByDepartment env st code).deptList = st.deptList ∧
      (filterByDepartment env st code).errorShown = true ∧
      (filterByDepartment env st code).selectedDepartment = code := by
  intro env st code h
  simp [filterByDepartment, h]

/-- Counterexample to C2 as stated: from the ready dashboard with "05"
selected, a failing `filterByDepartment("27")` leaves the selection at "27",
not at the previous "05". -/
theorem C2_counterexample :
    envHistFail.history (some "27") = none ∧
    readyState.selectedDepartment = some "05" ∧
    (filterByDepartment envHistFail readyState (some "27")).selectedDepartment ≠
      readyState.selectedDepartment := by
  exact ⟨rfl, rfl, by decide⟩

/-- Witness for C2: the amended statement at the concrete failing
environment and ready state. -/
theorem C2_witness :
    (filterByDepartment envHistFail readyState (some "27")).data =
        readyState.data ∧
    (filterByDepartment envHistFail readyState (some "27")).kpis =
        readyState.kpis ∧
    (filterByDepartment envHistFail readyState (some "27")).trendChart =
        readyState.trendChart ∧
    (filterByDepartment envHistFail readyState (some "27")).funnelChart =
        readyState.funnelChart ∧
    (filterByDepartment envHistFail readyState (some "27")).deptList =
        readyState.deptList ∧
    (filterByDepartment envHistFail readyState (some "27")).errorShown = true ∧
    (filterByDepartment envHistFail readyState (some "27")).selectedDepartment =
        some "27" :=
  C2_filter_failure_preserves_content envHistFail readyState (some "27") rfl

/-- C5: if any of the three joint analytics fetches fails, `init()` renders
nothing at all — KPIs, charts, department list and stored data are untouched,
the dashboard is not marked loaded, and the error state is shown. -/
theorem C5_init_fails_together :
    ∀ (env : ApiEnv) (st : DashboardState),
      st.loaded = false →
      (env.national = none ∨ env.departments = none ∨ env.history none = none) →
      (dashInit env st).kpis = st.kpis ∧
      (dashInit env st).trendChart = st.trendChart ∧
      (dashInit env st).funnelChart = st.funnelChart ∧
      (dashInit env st).deptList = st.deptList ∧
      (dashInit env st).data = st.data ∧
      (dashInit env st).loaded = false ∧
      (dashInit env st).errorShown = true := by
  intro env st hl hfail
  have hn := loadData_none env hfail
  simp [dashInit, hl, hn]

/-- Witness for C5: the failing environment against the fresh dashboard. -/
theorem C5_witness :
    (dashInit envAllFail initialDashState).kpis = initialDashState.kpis ∧
    (dashInit envAllFail initialDashState).trendChart =
        initialDashState.trendChart ∧
    (dashInit envAllFail initialDashState).funnelChart =
        initialDashState.funnelChart ∧
    (dashInit envAllFail initialDashState).deptList =
        initialDashState.deptList ∧
    (dashInit envAllFail initialDashState).data = initialDashState.data ∧
    (dashInit envAllFail initialDashState).loaded = false ∧
    (dashInit envAllFail initialDashState).errorShown = true :=
  C5_init_fails_together envAllFail initialDashState rfl (Or.inl rfl)

/-- C6: over any sequence of view switches from the initial application
state, the three-way analytics fetch is issued exactly once if the dashboard
view is ever entered and never otherwise; and `init()` is a no-op once the
dashboard is loaded. -/
theorem C6_lazy_init_once :
    (∀ (env : ApiEnv) (vs : List String),
        (runSwitches env initialAppState vs).dash.fetchCount =
          if vs.contains "dashboard" then 1 else 0) ∧
    (∀ (env : ApiEnv) (st : DashboardState),
        st.loaded = true → dashInit env st = st) := by
  constructor
  · intro env vs
    exact runSwitches_fetchCount env vs initialAppState rfl rfl rfl
  · exact dashInit_noop

/-- Witness for C6: switching to the dashboard twice issues exactly one
fetch, and `init()` on the loaded ready state is the identity. -/
theorem C6_witness :
    (runSwitches envOK initialAppState ["dashboard", "dashboard"]).dash.fetchCount =
      (if (["dashboard", "dashboard"] : List String).contains "dashboard"
        then 1 else 0) ∧
    dashInit envOK readyState = readyState :=
  ⟨C6_lazy_init_once.1 envOK ["dashboard", "dashboard"],
   C6_lazy_init_once.2 envOK readyState rfl⟩

/-- C8: filtering to any department and then back to the national scope
re-renders KPI values equal to those a fresh national fetch would produce
(assuming the environment still serves the data the dashboard loaded). -/
theorem C8_filter_round_trip :
    ∀ (env : ApiEnv) (st : DashboardState) (code : Option String)
      (d : DashData) (h0 : HistorySeries),
      st.data = some d →
      env.national = some d.national →
      env.departments = some d.departments →
      env.history none = some h0 →
      (filterByDepartment env (filterByDepartment env st code) none).kpis =
          renderKPIs d.national d.departments ∧
      freshNationalKPIs env = some (renderKPIs d.national d.departments) := by
  intro env st code d h0 hd hn hdep hh
  constructor
  · cases hc : env.history code with
    | none => simp [filterByDepartment, hc, hh, hd]
    | some h1 =>
        cases code with
        | none => simp_all [filterByDepartment, hh]
        | some c => simp [filterByDepartment, hc, hh, hd]
  · simp [freshNationalKPIs, hn, hdep]

/-- Witness for C8: the round trip through department "27" on the concrete
ready dashboard restores the nationally rendered KPIs. -/
theorem C8_witness :
    (filterByDepartment envOK (filterByDepartment envOK readyState (some "27"))
        none).kpis = renderKPIs demoData.national demoData.departments ∧
    freshNationalKPIs envOK =
      some (renderKPIs demoData.national demoData.departments) :=
  C8_filter_round_trip envOK readyState (some "27") demoData histNat
    rfl rfl rfl rfl

/-! ### Adjustment-construction lemmas for the prediction request -/

theorem mem_scenarioAdjustments (b : Prediction) (inv : Investments)
    (u : InvestmentType) (h : 0 < inv.level u) :
    ((INVESTMENT_CONFIG u).parameter,
      b.input_parameters (INVESTMENT_CONFIG u).parameter
        + (INVESTMENT_CONFIG u).improvement * (inv.level u : ℚ))
      ∈ scenarioAdjustments b inv := by
  by_cases h1 : 0 < inv.infrastructure <;>
    by_cases h2 : 0 < inv.quality <;>
    by_cases h3 : 0 < inv.coverage <;>
    by_cases h4 : 0 < inv.staffing <;>
    cases u <;>
    simp_all [scenarioAdjustments, investmentTypes, Investments.level]

theorem not_mem_scenarioAdjustments_keys (b : Prediction) (inv : Investments)
    (u : InvestmentType) (h : inv.level u = 0) :
    (INVESTMENT_CONFIG u).parameter ∉
      (scenarioAdjustments b inv).map Prod.fst := by
  by_cases h1 : 0 < inv.infrastructure <;>
    by_cases h2 : 0 < inv.quality <;>
    by_cases h3 : 0 < inv.coverage <;>
    by_cases h4 : 0 < inv.staffing <;>
    cases u <;>
    simp_all [scenarioAdjustments, investmentTypes, Investments.level,
      INVESTMENT_CONFIG]

theorem scenarioAdjustments_nil_of_zero (b : Prediction) (inv : Investments)
    (h : ∀ u, inv.level u = 0) : scenarioAdjustments b inv = [] := by
  have e1 : inv.infrastructure = 0 := h .infrastructure
  have e2 : inv.quality = 0 := h .quality
  have e3 : inv.coverage = 0 := h .coverage
  have e4 : inv.staffing = 0 := h .staffing
  simp [scenarioAdjustments, investmentTypes, Investments.level, e1, e2, e3, e4]

theorem scenarioAdjustments_ne_nil (b : Prediction) (inv : Investments)
    (u : InvestmentType) (h : 0 < inv.level u) :
    scenarioAdjustments b inv ≠ [] :=
  List.ne_nil_of_mem (mem_scenarioAdjustments b inv u h)

/-- C3: a successful investment action issues exactly one prediction request
whose adjustments contain, for every kind at positive level, the value
`baseline_input[parameter] + improvement * level` under that kind's
parameter name, and no entry for any kind at level 0; the response replaces
the current prediction while the baseline is unchanged.  Moreover, with all
levers at level 0 the recompute sends no scenario-adjustments field at
all. -/
theorem C3_adjusted_prediction_request :
    (∀ (api : PredictApi) (s : SimulationState) (t : InvestmentType)
        (b : Prediction),
      s.baseline = some b →
      s.investments.level t < 3 →
      (INVESTMENT_CONFIG t).cost ≤ s.budget →
      ∃ (s' : SimulationState) (req : PredictRequest),
        investAction api s t = (s', some req) ∧
        (∀ u, 0 < s'.investments.level u →
          ((INVESTMENT_CONFIG u).parameter,
            b.input_parameters (INVESTMENT_CONFIG u).parameter
              + (INVESTMENT_CONFIG u).improvement * (s'.investments.level u : ℚ))
            ∈ req.scenario_adjustments.getD []) ∧
        (∀ u, s'.investments.level u = 0 →
          (INVESTMENT_CONFIG u).parameter ∉
            (req.scenario_adjustments.getD []).map Prod.fst) ∧
        req.scenario_adjustments ≠ none ∧
        s'.currentPrediction = some (api req) ∧
        s'.baseline = s.baseline) ∧
    (∀ (api : PredictApi) (s : SimulationState) (b : Prediction),
      s.baseline = some b →
      (∀ u, s.investments.level u = 0) →
      ∃ req : PredictRequest,
        (updatePrediction api s).2 = some req ∧
        req.scenario_adjustments = none) := by
  constructor
  · intro api s t b hb hlvl hcost
    have hd : investDisabled s t = false := by
      simp only [investDisabled, Bool.or_eq_false_iff, decide_eq_false_iff_not]
      omega
    set s1 : SimulationState :=
      { s with
          budget := s.budget - (INVESTMENT_CONFIG t).cost
          investments := s.investments.incr t } with hs1
    have hb1 : s1.baseline = some b := hb
    have hpos : 0 < s1.investments.level t := by
      rw [hs1]
      simp only
      rw [level_incr, if_pos rfl]
      omega
    have hne : scenarioAdjustments b s1.investments ≠ [] :=
      scenarioAdjustments_ne_nil b s1.investments t hpos
    have hreq : buildPredictRequest s1 b =
        { municipality_name := s1.selectedMunicipality
          target_year := 2025
          scenario_adjustments := some (scenarioAdjustments b s1.investments) } := by
      unfold buildPredictRequest
      simp [List.isEmpty_iff, hne]
    have hact : investAction api s t =
        ({ s1 with currentPrediction := some (api (buildPredictRequest s1 b)) },
          some (buildPredictRequest s1 b)) := by
      unfold investAction
      rw [hd]
      simp only [Bool.false_eq_true, if_false]
      unfold handleInvestment
      rw [if_neg (not_lt.mpr hcost)]
      unfold updatePrediction
      rw [← hs1, hb1]
    refine ⟨_, _, hact, ?_, ?_, ?_, rfl, hb1.trans hb.symm⟩
    · intro u hu
      rw [hreq]
      simp only [Option.getD_some]
      exact mem_scenarioAdjustments b s1.investments u hu
    · intro u hu
      rw [hreq]
      simp only [Option.getD_some]
      exact not_mem_scenarioAdjustments_keys b s1.investments u hu
    · rw [hreq]
      simp
  · intro api s b hb hz
    have hnil : scenarioAdjustments b s.investments = [] :=
      scenarioAdjustments_nil_of_zero b s.investments hz
    refine ⟨buildPredictRequest s b, ?_, ?_⟩
    · unfold updatePrediction
      rw [hb]
    · unfold buildPredictRequest
      simp [hnil]

/-- Witness for C3: one staffing investment from the freshly loaded
scenario state (baseline classroom density 30, improvement -2) issues a
request carrying classroom density 28, and an all-zero state sends no
adjustments field. -/
theorem C3_witness :
    (∃ (s' : SimulationState) (req : PredictRequest),
      investAction apiConst loadedState InvestmentType.staffing =
        (s', some req) ∧
      (∀ u, 0 < s'.investments.level u →
        ((INVESTMENT_CONFIG u).parameter,
          basePred.input_parameters (INVESTMENT_CONFIG u).parameter
            + (INVESTMENT_CONFIG u).improvement * (s'.investments.level u : ℚ))
          ∈ req.scenario_adjustments.getD []) ∧
      (∀ u, s'.investments.level u = 0 →
        (INVESTMENT_CONFIG u).parameter ∉
          (req.scenario_adjustments.getD []).map Prod.fst) ∧
      req.scenario_adjustments ≠ none ∧
      s'.currentPrediction = some (apiConst req) ∧
      s'.baseline = loadedState.baseline) ∧
    (∃ req : PredictRequest,
      (updatePrediction apiConst loadedState).2 = some req ∧
      req.scenario_adjustments = none) :=
  ⟨C3_adjusted_prediction_request.1 apiConst loadedState InvestmentType.staffing
      basePred rfl (by decide) (by decide),
   C3_adjusted_prediction_request.2 apiConst loadedState basePred rfl
      (by intro u; cases u <;> decide)⟩

end EduPredict
